import Mathlib

/-!
# Verification of the Flipkart-Minutes MCP tool façade

Shallow embedding of `mcp-server/mcp_server.py` and proofs about it.

Modelling conventions (shared by the whole file):

* JSON values are modelled structurally.  A field that may be missing from an
  upstream JSON object is an `Option`; a JSON field holding `null` is modelled
  the same as a missing field (the source only ever distinguishes them through
  `dict.get`, where both paths matter only for defaults — noted where relevant).
* Python numbers (int/float) are modelled as exact rationals (`Rat`); `round`
  is Python's banker's rounding (`pyRound`), and Python's textual rendering of
  numbers is abstracted by `pyRatStr` (no settled claim depends on the exact
  rendering of a number inside a message string).
* Python truthiness of strings/numbers (`None`, `""` and `0` are falsy) is
  modelled by `strTruthy`/`ratTruthy`, and `a or b` on such values by
  `pyOrS`/`pyOrQ`.
* Every outbound HTTP interaction is mediated by an explicit oracle
  (a function or field of a `…Net` structure) returning
  `Except Unit <parsed response>`; `Except.error ()` covers every way the
  Python call can raise (transport error, `res.json()` parse failure, or a
  `KeyError` while the response envelope is being destructured before the
  relevant `dict.get` guards run).  Functions that issue requests also return
  the list of requests they issued, so frame properties ("no mutating
  request") are provable.
* A Python function whose body is wrapped in `try/except` returning `None`
  is embedded as a total function into `Option _`; a function that can let an
  exception escape to its caller is embedded into `Except Unit _`.
-/

/-- HTTP method of an outbound request. -/
inductive Method where
  | GET
  | POST
  | PUT
  | DELETE
deriving DecidableEq, Repr

/-- An outbound HTTP request (method and path), as logged by the embedding. -/
structure Request where
  method : Method
  path : String
deriving DecidableEq, Repr

/-- A request is mutating when it is a POST, PUT or DELETE. -/
def Request.isMutating (r : Request) : Bool :=
  r.method ≠ Method.GET

/-- Python truthiness of an optional string: `None` and `""` are falsy. -/
def strTruthy : Option String → Bool
  | none => false
  | some s => s ≠ ""

/-- Python truthiness of an optional number: `None` and `0` are falsy. -/
def ratTruthy : Option Rat → Bool
  | none => false
  | some q => q ≠ 0

/-- Python `a or b` on optional strings (`None`/`""` falsy). -/
def pyOrS (a b : Option String) : Option String :=
  if strTruthy a then a else b

/-- Python `a or b` on optional numbers (`None`/`0` falsy). -/
def pyOrQ (a b : Option Rat) : Option Rat :=
  if ratTruthy a then a else b

/-- Floor of a rational as an integer (`q.den` is positive, so `Int.fdiv`
floors the quotient). -/
def ratFloor (q : Rat) : Int :=
  Int.fdiv q.num (q.den : Int)

/-- Python 3 `round` on an exact rational: round half to even. -/
def pyRound (q : Rat) : Int :=
  let f := ratFloor q
  let frac := q - (f : Rat)
  if frac < 1/2 then f
  else if frac > 1/2 then f + 1
  else if f % 2 = 0 then f else f + 1

/-- Rendering of a Python number inside an f-string, abstracted as the
`Rat` representation (no settled claim depends on this rendering). -/
def pyRatStr (q : Rat) : String :=
  toString q

/-- Python f-string rendering of a possibly-`None` string value. -/
def pyStrOptS : Option String → String
  | none => "None"
  | some s => s

/-- Python f-string rendering of a possibly-`None` numeric value. -/
def pyStrOptQ : Option Rat → String
  | none => "None"
  | some q => pyRatStr q

/-- Failing projection of an `Option`, modelling a Python `dict[key]` access
(`KeyError` ⇒ `Except.error`). -/
def req {α : Type} : Option α → Except Unit α
  | some a => Except.ok a
  | none => Except.error ()

/-- The base64 alphabet used by `base64.b64encode`. -/
def b64Alphabet : List Char :=
  "ABCDEFGHIJKLMNOPQRSTUVWXYZabcdefghijklmnopqrstuvwxyz0123456789+/".toList

/-- Standard base64 encoding of a byte list, three bytes at a time. -/
def b64EncodeChunks : List UInt8 → List Char
  | [] => []
  | [a] =>
    let n := a.toNat
    [b64Alphabet.getD (n / 4) '?', b64Alphabet.getD ((n % 4) * 16) '?', '=', '=']
  | [a, b] =>
    let n := a.toNat * 256 + b.toNat
    [b64Alphabet.getD (n / 1024) '?', b64Alphabet.getD ((n / 16) % 64) '?',
     b64Alphabet.getD ((n % 16) * 4) '?', '=']
  | a :: b :: c :: rest =>
    let n := a.toNat * 65536 + b.toNat * 256 + c.toNat
    b64Alphabet.getD (n / 262144) '?' :: b64Alphabet.getD ((n / 4096) % 64) '?' ::
    b64Alphabet.getD ((n / 64) % 64) '?' :: b64Alphabet.getD (n % 64) '?' ::
    b64EncodeChunks rest

/-- `base64.b64encode(content).decode("utf-8")`. -/
def b64Encode (bs : List UInt8) : String :=
  String.mk (b64EncodeChunks bs)

/-- The MCP `ImageContent` payload built by `_fetch_image_as_content`. -/
structure ImageContent where
  type : String
  data : String
  mimeType : String
deriving DecidableEq, Repr

/-- Parsed HTTP response for an image URL: status code, the
`content-type` header if present, and the body bytes. -/
structure ImgResp where
  status : Nat
  contentType : Option String
  content : List UInt8
deriving DecidableEq, Repr

/-- `content_type.split(";")[0].strip()` applied when the header contains a
semicolon (splitting on `";"` is the identity when none is present). -/
def stripContentType (ct : String) : String :=
  ((ct.splitOn ";").headD ct).trim

/-- Embedding of `_fetch_image_as_content` (mcp_server.py lines 82–113).
`imgNet` maps an image URL to its response (`Except.error` = the request or
`res.content`/header access raised; the whole body is inside `try/except`
returning `None`).  Returns the optional image together with the requests
issued. -/
def fetchImageAsContent (imgNet : String → Except Unit ImgResp)
    (imageUrl : Option String) : Option ImageContent × List Request :=
  match imageUrl with
  | none => (none, [])
  | some u =>
    if u = "" then (none, [])
    else
      match imgNet u with
      | Except.error _ => (none, [⟨Method.GET, u⟩])
      | Except.ok r =>
        if r.status ≠ 200 then (none, [⟨Method.GET, u⟩])
        else
          let ct0 := stripContentType (r.contentType.getD "image/jpeg")
          let ct := if ct0.startsWith "image/" then ct0 else "image/jpeg"
          if r.content.length > 1048576 then (none, [⟨Method.GET, u⟩])
          else (some ⟨"image", b64Encode r.content, ct⟩, [⟨Method.GET, u⟩])

/-!
## Recommendation Deriver (`_get_recommendation_from_history`, lines 116–239)
-/

/-- One line item of a historical order, as consumed by the deriver.
Fields prefixed `prod` model the nested `item["product"]` object
(`item.get("product", {}).get(k)`). -/
structure OrderItem where
  productId : Option String
  prodId : Option String
  name : Option String
  prodName : Option String
  price : Option Rat
  prodPrice : Option Rat
  image : Option String
  prodImage : Option String
  unit : Option String
  prodUnit : Option String
deriving DecidableEq, Repr

/-- A historical order (`order.get("items", [])`). -/
structure Order where
  items : List OrderItem
deriving DecidableEq, Repr

/-- Parsed response of `GET /orders` (missing `data` key folds into the
oracle's `Except.error`, since the code raises there; a missing `orders`
key is the empty list). -/
structure OrdersResp where
  success : Bool
  orders : List Order
deriving DecidableEq, Repr

/-- `item.get("productId") or item.get("product", {}).get("_id")`. -/
def itemProductId (it : OrderItem) : Option String :=
  pyOrS it.productId it.prodId

/-- `any(item.get("productId") == added or item.get("product", {}).get("_id") == added
for item in items)`. -/
def orderHasProduct (addedId : String) (items : List OrderItem) : Bool :=
  items.any fun it => it.productId == some addedId || it.prodId == some addedId

/-- One entry of the `co_purchased` accumulator: a co-occurring product id,
its occurrence count, and the first-seen snapshot of its display fields. -/
structure CoEntry where
  pid : Option String
  count : Nat
  name : Option String
  price : Option Rat
  image : Option String
  unit : Option String
deriving DecidableEq, Repr

/-- Processing of one line item of a qualifying order: skip the just-added
product, otherwise insert a first-seen snapshot (count 0) and increment the
count.  The accumulator is an insertion-ordered association list, matching
the insertion order of a Python dict. -/
def addCoItem (addedId : String) (acc : List CoEntry) (it : OrderItem) : List CoEntry :=
  let ipid := itemProductId it
  if ipid = some addedId then acc
  else if acc.any (fun e => e.pid == ipid) then
    acc.map fun e => if e.pid == ipid then { e with count := e.count + 1 } else e
  else
    acc ++ [{ pid := ipid, count := 0 + 1,
              name := pyOrS it.name it.prodName,
              price := pyOrQ it.price it.prodPrice,
              image := pyOrS it.image it.prodImage,
              unit := pyOrS it.unit it.prodUnit }]

/-- The full `co_purchased` accumulation loop over the retrieved orders:
orders not containing the added product are discarded, the items of the
others are folded with `addCoItem`. -/
def buildCo (addedId : String) (orders : List Order) : List CoEntry :=
  orders.foldl
    (fun acc o =>
      if orderHasProduct addedId o.items then o.items.foldl (addCoItem addedId) acc
      else acc)
    []

/-- Stable insertion of an entry into a list sorted by descending count:
the new entry (originally earlier) goes before every later entry whose
count does not exceed it. -/
def insertDesc (a : CoEntry) : List CoEntry → List CoEntry
  | [] => [a]
  | b :: l => if b.count ≤ a.count then a :: b :: l else b :: insertDesc a l

/-- Embedding of `sorted(co_purchased.items(), key=lambda x: x[1]["count"],
reverse=True)`: a stable sort by descending count (Python's `sorted` is
stable, and `reverse=True` keeps equal-count entries in insertion order). -/
def sortByCountDesc : List CoEntry → List CoEntry
  | [] => []
  | a :: l => insertDesc a (sortByCountDesc l)

/-- A product object of the upstream catalog (`data["data"]["product"]`, or
one element of `data["data"]["products"]`); every field optional. -/
structure UpProduct where
  mongoId : Option String
  plainId : Option String
  name : Option String
  price : Option Rat
  mrp : Option Rat
  unit : Option String
  rating : Option Rat
  reviewCount : Option Rat
  estimatedDeliveryMins : Option Rat
  stock : Option Rat
  dietaryPreference : Option String
  brand : Option String
  image : Option String
deriving DecidableEq, Repr

/-- Parsed response of `GET /products/{id}`: `success` flag and the
`data.product` object (`none` = the `data`/`product` keys are missing, so
any direct indexing of them raises). -/
structure DetailResp where
  success : Bool
  product : Option UpProduct
deriving DecidableEq, Repr

/-- The discount computation shared by `search_products` (lines 326–328) and
the deriver's refresh path (lines 200–202): the guard reads the fields with
`.get(k, 0)`, the arithmetic indexes them directly (`KeyError` if missing,
`ZeroDivisionError` if the MRP is zero — both modelled as `Except.error`). -/
def codeDiscount (mrp price : Option Rat) : Except Unit Int :=
  if mrp.getD 0 > price.getD 0 then
    match mrp, price with
    | some m, some pr =>
      if m = 0 then Except.error ()
      else Except.ok (pyRound ((m - pr) / m * 100))
    | _, _ => Except.error ()
  else Except.ok 0

/-- The recommendation's `product` payload; `none` on an optional field means
the key is absent from the returned dict (the fallback payload carries no
`discount_percent`, `mrp`, `in_stock` or `estimated_delivery_mins` keys). -/
structure RecProduct where
  id : Option String
  name : Option String
  price : Option Rat
  mrp : Option Rat
  discount_percent : Option Int
  unit : Option String
  image : Option String
  in_stock : Option Bool
  estimated_delivery_mins : Option Rat
deriving DecidableEq, Repr

/-- A derived recommendation, as attached to the cart-add response. -/
structure Rec where
  type : String
  message : String
  product : RecProduct
  times_bought_together : Nat
  prompt : String
deriving DecidableEq, Repr

/-- The recommendation built from a successful live refresh of the selected
product (lines 204–220). -/
def freshRec (addedName : String) (top : CoEntry) (p : UpProduct) (disc : Int) : Rec :=
  { type := "frequently_bought_together"
    message := "🛒 Customers who bought **" ++ addedName ++ "** also frequently bought:"
    product :=
      { id := top.pid
        name := p.name
        price := p.price
        mrp := p.mrp
        discount_percent := some disc
        unit := p.unit
        image := p.image
        in_stock := some (p.stock.getD 0 > 0)
        estimated_delivery_mins := some (p.estimatedDeliveryMins.getD 15) }
    times_bought_together := top.count
    prompt := "Would you like to add **" ++ pyStrOptS p.name ++ "** (₹" ++
      pyStrOptQ p.price ++ ") to your cart as well?" }

/-- The recommendation built from the cached first-seen snapshot when the
live refresh parses but reports `success: false` (lines 222–235); it carries
no discount field. -/
def fallbackRec (addedName : String) (top : CoEntry) : Rec :=
  { type := "frequently_bought_together"
    message := "🛒 Customers who bought **" ++ addedName ++ "** also frequently bought:"
    product :=
      { id := top.pid
        name := top.name
        price := top.price
        mrp := none
        discount_percent := none
        unit := top.unit
        image := top.image
        in_stock := none
        estimated_delivery_mins := none }
    times_bought_together := top.count
    prompt := "Would you like to add **" ++ pyStrOptS top.name ++ "** (₹" ++
      pyStrOptQ top.price ++ ") to your cart as well?" }

/-- Embedding of `_get_recommendation_from_history` (lines 116–239).
`ordersResp` is the parsed response of `GET /orders`; `productDetail` maps a
product-id path segment (`none` renders as the literal `None`) to the parsed
response of `GET /products/{id}`.  The whole Python body sits inside
`try/except: return None`, so every raising path yields `none`.  Also
returns the requests issued. -/
def getRecommendationFromHistory (ordersResp : Except Unit OrdersResp)
    (productDetail : Option String → Except Unit DetailResp)
    (addedId addedName : String) : Option Rec × List Request :=
  let tr0 : List Request := [⟨Method.GET, "/orders"⟩]
  match ordersResp with
  | Except.error _ => (none, tr0)
  | Except.ok data =>
    if !data.success then (none, tr0)
    else if data.orders.isEmpty then (none, tr0)
    else
      let co := buildCo addedId data.orders
      if co.isEmpty then (none, tr0)
      else
        match (sortByCountDesc co).head? with
        | none => (none, tr0)
        | some top =>
          let tr1 := tr0 ++ [⟨Method.GET, "/products/" ++ pyStrOptS top.pid⟩]
          match productDetail top.pid with
          | Except.error _ => (none, tr1)
          | Except.ok pd =>
            if pd.success then
              match pd.product with
              | none => (none, tr1)
              | some p =>
                match codeDiscount p.mrp p.price with
                | Except.error _ => (none, tr1)
                | Except.ok disc => (some (freshRec addedName top p disc), tr1)
            else (some (fallbackRec addedName top), tr1)

/-!
## Selection helpers (specification side)
-/

/-- The largest occurrence count in a `co_purchased` accumulator
(0 when empty); specification-side helper for stating the selection rule. -/
def maxCount : List CoEntry → Nat
  | [] => 0
  | a :: l => max a.count (maxCount l)

/-- The first entry attaining the running maximum count — the selection the
claims describe ("highest count, ties to the first encountered"). -/
def pickFirstMax : List CoEntry → Option CoEntry
  | [] => none
  | a :: l =>
    match pickFirstMax l with
    | none => some a
    | some b => if b.count ≤ a.count then some a else some b

/-!
## Cart-add workflow (`add_to_cart`, lines 647–734)
-/

/-- The discount computation of the unconfirmed proposal path (lines
671–673), where **both** operands of the guard are indexed directly
(`product['mrp'] > product['price']`), so a missing field raises even in
the guard. -/
def codeDiscountIdx (mrp price : Option Rat) : Except Unit Int := do
  let m ← req mrp
  let pr ← req price
  if m > pr then
    if m = 0 then Except.error ()
    else pure (pyRound ((m - pr) / m * 100))
  else pure 0

/-- The confirmation-question message of the proposal (lines 678–684);
`name`, `unit`, `price`, `mrp` and `rating` are indexed directly (raise when
missing), `reviewCount` and `estimatedDeliveryMins` default to 0 and 15. -/
def mkProposalMessage (p : UpProduct) (quantity : Nat) (disc : Int) :
    Except Unit String := do
  let nm ← req p.name
  let un ← req p.unit
  let pr ← req p.price
  let m ← req p.mrp
  let rt ← req p.rating
  pure ("**" ++ nm ++ "** (" ++ un ++ ")\n\n" ++
    "💰 Price: ₹" ++ pyRatStr pr ++ " (MRP: ₹" ++ pyRatStr m ++ ", " ++
    toString disc ++ "% off)\n" ++
    "⭐ Rating: " ++ pyRatStr rt ++ "/5 (" ++ pyRatStr (p.reviewCount.getD 0) ++
    " reviews)\n" ++
    "🚚 Delivery: ~" ++ pyRatStr (p.estimatedDeliveryMins.getD 15) ++
    " minutes\n\n" ++
    "Shall I add " ++ toString quantity ++
    " item(s) to your cart? (Say \x27Yes\x27 to confirm)")

/-- The structured proposal returned without mutating remote state. -/
structure Proposal where
  awaiting_confirmation : Bool
  message : String
  product_id : String
  product : UpProduct
deriving DecidableEq, Repr

/-- Parsed response of `POST /cart/items` (the upstream envelope; only its
`success` flag is inspected by the code). -/
structure CartAddResp where
  success : Bool
deriving DecidableEq, Repr

/-- The dict returned by a confirmed cart-add: the upstream envelope's
`success` flag plus the two keys the code may attach (`none` = key absent). -/
structure AddResult where
  success : Bool
  recommendation : Option Rec
  has_recommendation : Option Bool
deriving DecidableEq, Repr

/-- The possible return shapes of `add_to_cart`. -/
inductive AddToCartReturn where
  /-- Unconfirmed, product fetched, image available: `[image, proposal]`. -/
  | proposalWithImage (img : ImageContent) (p : Proposal)
  /-- Unconfirmed, product fetched, no image: the bare proposal dict. -/
  | proposal (p : Proposal)
  /-- Unconfirmed and the product fetch reported failure: the upstream
  envelope is passed through unchanged. -/
  | passthrough (d : DetailResp)
  /-- Confirmed: the cart-add response (with recommendation keys). -/
  | added (r : AddResult)
deriving DecidableEq, Repr

/-- Network oracle for one `add_to_cart` invocation. -/
structure CartNet where
  /-- `GET /products/{id}` (the id segment renders `None` for a `None` id). -/
  productDetail : Option String → Except Unit DetailResp
  /-- `GET` of an image URL. -/
  image : String → Except Unit ImgResp
  /-- `POST /cart/items`. -/
  cartAdd : Except Unit CartAddResp
  /-- `GET /orders?page=1&limit=50`. -/
  orders : Except Unit OrdersResp

/-- The product-name lookup of the confirmed path (lines 708–715): wrapped
in `try/except`, any exception yields the literal `"this item"`; a parsed
`success: false` response leaves the name `None`. -/
def lookupProductName (productDetail : Option String → Except Unit DetailResp)
    (productId : String) : Option String :=
  match productDetail (some productId) with
  | Except.error _ => some "this item"
  | Except.ok d =>
    if d.success then
      match d.product with
      | none => some "this item"
      | some p => some (p.name.getD "this item")
    else none

/-- Embedding of `add_to_cart` (lines 647–734).  Returns the result
(`Except.error ()` when the Python tool lets an exception escape) together
with the requests issued up to that point. -/
def addToCart (net : CartNet) (productId : String) (quantity : Nat)
    (confirmed : Bool) : Except Unit AddToCartReturn × List Request :=
  if !confirmed then
    let tr0 : List Request := [⟨Method.GET, "/products/" ++ productId⟩]
    match net.productDetail (some productId) with
    | Except.error _ => (Except.error (), tr0)
    | Except.ok d =>
      if d.success then
        match d.product with
        | none => (Except.error (), tr0)
        | some p =>
          match codeDiscountIdx p.mrp p.price with
          | Except.error _ => (Except.error (), tr0)
          | Except.ok disc =>
            let fi := fetchImageAsContent net.image p.image
            match mkProposalMessage p quantity disc with
            | Except.error _ => (Except.error (), tr0 ++ fi.2)
            | Except.ok msg =>
              let prop : Proposal :=
                { awaiting_confirmation := true, message := msg,
                  product_id := productId, product := p }
              match fi.1 with
              | some ic => (Except.ok (AddToCartReturn.proposalWithImage ic prop), tr0 ++ fi.2)
              | none => (Except.ok (AddToCartReturn.proposal prop), tr0 ++ fi.2)
      else (Except.ok (AddToCartReturn.passthrough d), tr0)
  else
    let productName := lookupProductName net.productDetail productId
    let tr1 : List Request :=
      [⟨Method.GET, "/products/" ++ productId⟩, ⟨Method.POST, "/cart/items"⟩]
    match net.cartAdd with
    | Except.error _ => (Except.error (), tr1)
    | Except.ok c =>
      if c.success && strTruthy productName then
        let rr := getRecommendationFromHistory net.orders net.productDetail
          productId (productName.getD "")
        match rr.1 with
        | some r =>
          (Except.ok (AddToCartReturn.added
            { success := c.success, recommendation := some r,
              has_recommendation := some true }), tr1 ++ rr.2)
        | none =>
          (Except.ok (AddToCartReturn.added
            { success := c.success, recommendation := none,
              has_recommendation := some false }), tr1 ++ rr.2)
      else
        (Except.ok (AddToCartReturn.added
          { success := c.success, recommendation := none,
            has_recommendation := none }), tr1)

/-!
## Cart view aggregator (`view_cart`, lines 551–643)
-/

/-- One saved address as returned by `GET /addresses`. -/
structure AddrJ where
  mongoId : Option String
  plainId : Option String
  name : Option String
  phone : Option String
  addressLine1 : Option String
  addressLine2 : Option String
  landmark : Option String
  city : Option String
  state : Option String
  pincode : Option String
  type : Option String
  isDefault : Option Bool
  isServiceable : Option Bool
deriving DecidableEq, Repr

/-- Parsed response of `GET /addresses` (a `success: true` response whose
`data` key is missing raises at `address_data["data"]`, folded into the
oracle's `Except.error`; a missing `addresses` key is the empty list). -/
structure AddrResp where
  success : Bool
  addresses : List AddrJ
deriving DecidableEq, Repr

/-- One cart line item as returned by `GET /cart`. -/
structure CartItemJ where
  productId : Option String
  name : Option String
  quantity : Option Rat
  price : Option Rat
  unit : Option String
  image : Option String
deriving DecidableEq, Repr

/-- The `bill` object of the cart response (passed through, plus two fields
read with defaults). -/
structure BillJ where
  freeDeliveryThreshold : Option Rat
  amountToFreeDelivery : Option Rat
deriving DecidableEq, Repr

/-- The cart object (`data["cart"]`): items (default `[]`) and the
`totalItems` field. -/
structure CartJ where
  items : List CartItemJ
  totalItems : Option Rat
deriving DecidableEq, Repr

/-- Parsed response of `GET /cart`.  `cart = none` models a missing
`data`/`cart` key: the code indexes `cart_data["data"]["cart"]` and raises
there (the `success` guard runs first, so a non-success envelope never
raises). -/
structure CartResp where
  success : Bool
  cart : Option CartJ
  bill : Option BillJ
deriving DecidableEq, Repr

/-- The reshaped default address built by `view_cart` (lines 579–591). -/
structure DefaultAddress where
  id : Option String
  name : Option String
  phone : Option String
  address_line1 : Option String
  address_line2 : Option String
  landmark : Option String
  city : Option String
  state : Option String
  pincode : Option String
  type : Option String
  is_serviceable : Bool
deriving DecidableEq, Repr

/-- `default_address` entry construction from a raw address
(`addr.get("_id") or addr.get("id")`; `isServiceable` defaults to `True`). -/
def mkDefaultAddress (a : AddrJ) : DefaultAddress :=
  { id := pyOrS a.mongoId a.plainId
    name := a.name
    phone := a.phone
    address_line1 := a.addressLine1
    address_line2 := a.addressLine2
    landmark := a.landmark
    city := a.city
    state := a.state
    pincode := a.pincode
    type := a.type
    is_serviceable := a.isServiceable.getD true }

/-- One formatted cart item (lines 600–609). -/
structure FormattedCartItem where
  product_id : Option String
  name : Option String
  quantity : Option Rat
  price_per_unit : Option Rat
  total_price : Rat
  unit : Option String
  image : Option String
deriving DecidableEq, Repr

/-- The enhanced `view_cart` response body (lines 612–641). -/
structure ViewCartResult where
  success : Bool
  items : List FormattedCartItem
  total_items : Rat
  item_count : Nat
  bill : Option BillJ
  estimated_mins : Nat
  estimated_time : String
  free_delivery_threshold : Rat
  amount_to_free_delivery : Rat
  selected_address : Option DefaultAddress
  has_address : Bool
  ready_for_checkout : Bool
  message : String
deriving DecidableEq, Repr

/-- Network oracle for one `view_cart` invocation. -/
structure ViewNet where
  cartResp : Except Unit CartResp
  addrResp : Except Unit AddrResp

/-- The possible return shapes of `view_cart`. -/
inductive ViewCartReturn where
  /-- Non-success cart fetch: the upstream envelope passed through. -/
  | passthrough (d : CartResp)
  /-- The enhanced aggregate response. -/
  | enhanced (r : ViewCartResult)
deriving DecidableEq, Repr

/-- The ready-for-checkout status message (line 641), parameterised over the
city of the default address and the delivery-minutes value interpolated into
the f-string. -/
def readyMessage (city : Option String) (mins : Nat) : String :=
  "✅ Ready for checkout! Delivery to " ++ pyStrOptS city ++ " in ~" ++
    toString mins ++ " mins."

/-- Embedding of `view_cart` (lines 551–643): fetch cart, fetch addresses,
select the default address, format items, and attach one of the four status
messages.  `max_delivery_mins` is the constant 15 (the source initialises it
as a default and never updates it). -/
def viewCart (net : ViewNet) : Except Unit ViewCartReturn :=
  match net.cartResp with
  | Except.error _ => Except.error ()
  | Except.ok cd =>
    if !cd.success then Except.ok (ViewCartReturn.passthrough cd)
    else
      match net.addrResp with
      | Except.error _ => Except.error ()
      | Except.ok ad =>
        let defaultAddress : Option DefaultAddress :=
          if ad.success then
            (ad.addresses.find? fun a => a.isDefault.getD false).map mkDefaultAddress
          else none
        match cd.cart with
        | none => Except.error ()
        | some cart =>
          let cartItems := cart.items
          let maxDeliveryMins : Nat := 15
          let formattedItems : List FormattedCartItem := cartItems.map fun it =>
            { product_id := it.productId
              name := it.name
              quantity := it.quantity
              price_per_unit := it.price
              total_price := it.price.getD 0 * it.quantity.getD 1
              unit := it.unit
              image := it.image }
          let msg : String :=
            match defaultAddress with
            | none => "⚠️ No delivery address set. Please add an address before checkout."
            | some da =>
              if !da.is_serviceable then
                "⚠️ Delivery not available at selected address."
              else if cartItems.length = 0 then
                "🛒 Your cart is empty."
              else
                readyMessage da.city maxDeliveryMins
          Except.ok (ViewCartReturn.enhanced
            { success := true
              items := formattedItems
              total_items := cart.totalItems.getD (cartItems.length : Rat)
              item_count := cartItems.length
              bill := cd.bill
              estimated_mins := maxDeliveryMins
              estimated_time := "~" ++ toString maxDeliveryMins ++ " minutes"
              free_delivery_threshold :=
                ((cd.bill.getD ⟨none, none⟩).freeDeliveryThreshold).getD 199
              amount_to_free_delivery :=
                ((cd.bill.getD ⟨none, none⟩).amountToFreeDelivery).getD 0
              selected_address := defaultAddress
              has_address := defaultAddress.isSome
              ready_for_checkout := defaultAddress.isSome && cartItems.length > 0
              message := msg })

/-!
## Product discovery (`search_products`, lines 293–360)
-/

/-- One reshaped product summary of `search_products` (lines 330–344). -/
structure FormattedProduct where
  id : Option String
  name : Option String
  price : Option Rat
  mrp : Option Rat
  discount_percent : Int
  unit : Option String
  rating : Option Rat
  review_count : Rat
  estimated_delivery_mins : Rat
  in_stock : Bool
  dietary : String
  brand : String
  image_url : Option String
deriving DecidableEq, Repr

/-- The reshaping of one upstream product into a flattened summary,
including the derived discount (lines 325–344); `Except.error ()` when the
discount arithmetic raises. -/
def formatProduct (p : UpProduct) : Except Unit FormattedProduct := do
  let disc ← codeDiscount p.mrp p.price
  pure
    { id := pyOrS p.mongoId p.plainId
      name := p.name
      price := p.price
      mrp := p.mrp
      discount_percent := disc
      unit := p.unit
      rating := p.rating
      review_count := p.reviewCount.getD 0
      estimated_delivery_mins := p.estimatedDeliveryMins.getD 15
      in_stock := p.stock.getD 0 > 0
      dietary := p.dietaryPreference.getD "veg"
      brand := p.brand.getD ""
      image_url := p.image }

/-- Parsed response of `GET /products/search` (missing `data` key folds into
the oracle's `Except.error`; missing `products` key is the empty list). -/
structure SearchResp where
  success : Bool
  products : List UpProduct
deriving DecidableEq, Repr

/-- Network oracle for one `search_products` invocation. -/
structure SearchNet where
  searchResp : Except Unit SearchResp
  image : String → Except Unit ImgResp

/-- The possible return shapes of `search_products`: the non-success
envelope passed through, or the enhanced data (with `formatted_products`
attached) preceded by the fetched images — an empty image list is the
bare-dict return of the source. -/
inductive SearchReturn where
  | raw (d : SearchResp)
  | enhanced (imgs : List ImageContent) (d : SearchResp)
      (formatted : List FormattedProduct)
deriving DecidableEq, Repr

/-- The image-attachment loop of the discovery tools: fetch each of the top
three products' images, keeping the successful ones. -/
def collectImages (imgNet : String → Except Unit ImgResp)
    (ps : List UpProduct) : List ImageContent :=
  (ps.map fun p => (fetchImageAsContent imgNet p.image).1).filterMap id

/-- Embedding of `search_products` (lines 293–360), query parameters
elided (they only shape the outbound request).  `Except.error ()` when the
tool lets an exception escape (response parse failure or a raising
reshape). -/
def searchProducts (net : SearchNet) (showImages : Bool) :
    Except Unit SearchReturn :=
  match net.searchResp with
  | Except.error _ => Except.error ()
  | Except.ok d =>
    if d.success then
      match d.products.mapM formatProduct with
      | Except.error _ => Except.error ()
      | Except.ok fps =>
        if showImages then
          Except.ok (SearchReturn.enhanced
            (collectImages net.image (d.products.take 3)) d fps)
        else Except.ok (SearchReturn.enhanced [] d fps)
    else Except.ok (SearchReturn.raw d)

/-!
## Specification-side definitions and extractors
-/

/-- Discount formula written from the spec's words, the refinement target
for C9: "discount percent = round((MRP − price) / MRP × 100) when
MRP > price, else 0". -/
def specDiscount (mrp price : Rat) : Int :=
  if mrp > price then pyRound ((mrp - price) / mrp * 100) else 0

/-- Projects the enhanced aggregate out of a `view_cart` return. -/
def viewCartEnhanced : Except Unit ViewCartReturn → Option ViewCartResult
  | Except.ok (ViewCartReturn.enhanced r) => some r
  | _ => none

/-- Projects the confirmed-add result out of an `add_to_cart` return. -/
def addedResult : Except Unit AddToCartReturn × List Request → Option AddResult
  | (Except.ok (AddToCartReturn.added r), _) => some r
  | _ => none

/-- Placeholder recommendation used only as a `getD` default when reading a
value that is provably `some _`. -/
def dummyRec : Rec :=
  fallbackRec "" { pid := none, count := 0, name := none, price := none,
                   image := none, unit := none }

/-- Placeholder aggregate used only as a `getD` default when reading a value
that is provably `some _`. -/
def dummyViewCartResult : ViewCartResult :=
  { success := false, items := [], total_items := 0, item_count := 0,
    bill := none, estimated_mins := 0, estimated_time := "",
    free_delivery_threshold := 0, amount_to_free_delivery := 0,
    selected_address := none, has_address := false,
    ready_for_checkout := false, message := "" }

/-!
## Concrete scenario data used by the claim theorems and witnesses
-/

/-- C1 scenario: a single saved address, flagged default but **not**
serviceable. -/
def c1Addr : AddrJ :=
  { mongoId := some "a1", plainId := none, name := some "Asha",
    phone := some "9876543210", addressLine1 := some "12 MG Road",
    addressLine2 := none, landmark := none, city := some "Pune",
    state := some "MH", pincode := some "411001", type := some "home",
    isDefault := some true, isServiceable := some false }

/-- C1 scenario: a one-item cart together with the unserviceable default
address. -/
def c1Net : ViewNet :=
  { cartResp := Except.ok
      { success := true
        cart := some
          { items := [{ productId := some "p1", name := some "Milk",
                        quantity := some 2, price := some 30,
                        unit := some "500ml", image := none }]
            totalItems := some 2 }
        bill := some { freeDeliveryThreshold := some 199,
                       amountToFreeDelivery := some 139 } }
    addrResp := Except.ok { success := true, addresses := [c1Addr] } }

/-- C2 scenario: order line item for the just-added product A. -/
def c2ItemA : OrderItem :=
  { productId := some "A", prodId := none, name := some "Apples",
    prodName := none, price := some 120, prodPrice := none, image := none,
    prodImage := none, unit := some "1kg", prodUnit := none }

/-- C2 scenario: order line item for co-occurring product B. -/
def c2ItemB : OrderItem :=
  { productId := some "B", prodId := none, name := some "Bananas",
    prodName := none, price := some 50, prodPrice := none,
    image := some "http://img/b.jpg", prodImage := none,
    unit := some "1 dozen", prodUnit := none }

/-- C2 scenario: order line item for co-occurring product C. -/
def c2ItemC : OrderItem :=
  { productId := some "C", prodId := none, name := some "Cherries",
    prodName := none, price := some 200, prodPrice := none, image := none,
    prodImage := none, unit := some "250g", prodUnit := none }

/-- C2 scenario: A co-occurs with B in three orders and with C in one. -/
def c2Orders : Except Unit OrdersResp :=
  Except.ok
    { success := true
      orders := [⟨[c2ItemA, c2ItemB]⟩, ⟨[c2ItemA, c2ItemB]⟩,
                 ⟨[c2ItemA, c2ItemB]⟩, ⟨[c2ItemA, c2ItemC]⟩] }

/-- C2 scenario: live catalog entry for product B. -/
def c2ProductB : UpProduct :=
  { mongoId := some "B", plainId := none, name := some "Bananas",
    price := some 45, mrp := some 50, unit := some "1 dozen",
    rating := some (9/2), reviewCount := some 120,
    estimatedDeliveryMins := some 10, stock := some 25,
    dietaryPreference := some "veg", brand := some "Fresho",
    image := some "http://img/b.jpg" }

/-- C2 scenario: the catalog answers only for product B. -/
def c2Detail : Option String → Except Unit DetailResp := fun pid =>
  if pid = some "B" then Except.ok { success := true, product := some c2ProductB }
  else Except.error ()

/-- C5 witness scenario: one order containing A and B. -/
def c5Orders : Except Unit OrdersResp :=
  Except.ok { success := true, orders := [⟨[c2ItemA, c2ItemB]⟩] }

/-- C4 scenario: a 200 response whose declared content type is not an image
type. -/
def c4Resp : ImgResp :=
  { status := 200, contentType := some "text/html", content := [72, 105] }

/-- C4 scenario: every URL answers with the non-image response. -/
def c4ImgNet : String → Except Unit ImgResp := fun _ => Except.ok c4Resp

/-- C4 witness scenario: a 200 image response one byte over the 1 MiB
limit. -/
def c4BigResp : ImgResp :=
  { status := 200, contentType := some "image/png",
    content := List.replicate 1048577 0 }

/-- C4 witness scenario: every URL answers with the oversized response. -/
def c4BigNet : String → Except Unit ImgResp := fun _ => Except.ok c4BigResp

/-- C4 witness scenario: one searchable product. -/
def c4Product : UpProduct :=
  { mongoId := some "x1", plainId := none, name := some "Soap",
    price := some 75, mrp := some 100, unit := some "1pc",
    rating := some 4, reviewCount := some 10,
    estimatedDeliveryMins := some 12, stock := some 5,
    dietaryPreference := some "veg", brand := some "Clean",
    image := some "http://img/x.png" }

/-- C4 witness scenario: a successful search whose image fetches are all
oversized. -/
def c4SearchNet : SearchNet :=
  { searchResp := Except.ok { success := true, products := [c4Product] }
    image := c4BigNet }

/-- The reshaped summary of `c4Product` (checked by `decide` in the
witness). -/
def c4Formatted : FormattedProduct :=
  { id := some "x1", name := some "Soap", price := some 75, mrp := some 100,
    discount_percent := 25, unit := some "1pc", rating := some 4,
    review_count := 10, estimated_delivery_mins := 12, in_stock := true,
    dietary := "veg", brand := "Clean", image_url := some "http://img/x.png" }

/-- C6 counterexample scenario: the pre-add product lookup parses but
reports failure, while the cart POST itself succeeds. -/
def c6Net : CartNet :=
  { productDetail := fun _ => Except.ok { success := false, product := none }
    image := fun _ => Except.error ()
    cartAdd := Except.ok { success := true }
    orders := Except.error () }

/-- C6 witness scenario: the lookup succeeds (truthy name) and the history
fetch fails, so the explicit no-recommendation flag is attached. -/
def c6OkNet : CartNet :=
  { productDetail := fun _ =>
      Except.ok { success := true, product := some c2ProductB }
    image := fun _ => Except.error ()
    cartAdd := Except.ok { success := true }
    orders := Except.error () }

/-- C7 witness scenario: the selected entry for product B after one order
containing A and B. -/
def c7Top : CoEntry :=
  { pid := some "B", count := 1, name := some "Bananas", price := some 50,
    image := some "http://img/b.jpg", unit := some "1 dozen" }

/-- C7 witness scenario: the live refresh parses but reports failure. -/
def c7Detail : Option String → Except Unit DetailResp := fun _ =>
  Except.ok { success := false, product := none }

/-- C8 witness scenario: refresh raises. -/
def c8Detail : Option String → Except Unit DetailResp := fun _ =>
  Except.error ()

/-- C8 witness scenario: confirmed add whose POST succeeds while the
history fetch raises. -/
def c8Net : CartNet :=
  { productDetail := fun _ =>
      Except.ok { success := true, product := some c2ProductB }
    image := fun _ => Except.error ()
    cartAdd := Except.ok { success := true }
    orders := Except.error () }

/-- C9 witness scenario: a product with MRP 100 and price 75. -/
def c9Product : UpProduct :=
  { mongoId := some "p9", plainId := none, name := some "Ghee",
    price := some 75, mrp := some 100, unit := some "200ml",
    rating := some 4, reviewCount := some 3,
    estimatedDeliveryMins := some 15, stock := some 2,
    dietaryPreference := some "veg", brand := some "Amul",
    image := some "http://img/g.png" }

/-- The reshaped summary of `c9Product`: 25 % off. -/
def c9Formatted : FormattedProduct :=
  { id := some "p9", name := some "Ghee", price := some 75, mrp := some 100,
    discount_percent := 25, unit := some "200ml", rating := some 4,
    review_count := 3, estimated_delivery_mins := 15, in_stock := true,
    dietary := "veg", brand := "Amul", image_url := some "http://img/g.png" }

/-- C10 witness scenario: a serviceable default address. -/
def c10Addr : AddrJ :=
  { mongoId := some "a2", plainId := none, name := some "Ravi",
    phone := some "9123456780", addressLine1 := some "7 FC Road",
    addressLine2 := none, landmark := none, city := some "Pune",
    state := some "MH", pincode := some "411004", type := some "home",
    isDefault := some true, isServiceable := some true }

/-- C10 witness scenario: a one-item cart with a serviceable default
address. -/
def c10Net : ViewNet :=
  { cartResp := Except.ok
      { success := true
        cart := some
          { items := [{ productId := some "p2", name := some "Bread",
                        quantity := some 1, price := some 40,
                        unit := some "400g", image := none }]
            totalItems := some 1 }
        bill := none }
    addrResp := Except.ok { success := true, addresses := [c10Addr] } }

/-- The enhanced aggregate produced on the C10 witness scenario. -/
def c10R : ViewCartResult :=
  (viewCartEnhanced (viewCart c10Net)).getD dummyViewCartResult

/-!
## Selection lemmas: head of the stable descending sort
-/

theorem pickFirstMax_eq_none {l : List CoEntry} :
    pickFirstMax l = none ↔ l = [] := by
  cases l with
  | nil => simp [pickFirstMax]
  | cons a l =>
    simp only [pickFirstMax]
    constructor
    · intro h
      cases hpl : pickFirstMax l with
      | none => rw [hpl] at h; exact absurd h (by simp)
      | some b => rw [hpl] at h; by_cases hc : b.count ≤ a.count <;> simp [hc] at h
    · intro h; exact absurd h (by simp)

theorem head?_insertDesc (a : CoEntry) (s : List CoEntry) :
    (insertDesc a s).head? =
      some (match s.head? with
            | none => a
            | some b => if b.count ≤ a.count then a else b) := by
  cases s with
  | nil => rfl
  | cons b t =>
    simp only [insertDesc, List.head?]
    by_cases hc : b.count ≤ a.count <;> simp [hc, insertDesc]

theorem head?_sortByCountDesc_eq_pickFirstMax :
    ∀ l : List CoEntry, (sortByCountDesc l).head? = pickFirstMax l
  | [] => rfl
  | a :: l => by
    have ih := head?_sortByCountDesc_eq_pickFirstMax l
    simp only [sortByCountDesc, pickFirstMax, head?_insertDesc, ← ih]
    cases (sortByCountDesc l).head? with
    | none => rfl
    | some b => by_cases hc : b.count ≤ a.count <;> simp [hc]

theorem count_pickFirstMax :
    ∀ {l : List CoEntry} {b : CoEntry}, pickFirstMax l = some b →
      b.count = maxCount l := by
  intro l
  induction l with
  | nil => intro b h; exact absurd h (by simp [pickFirstMax])
  | cons a l ih =>
    intro c h
    simp only [pickFirstMax] at h
    cases hpl : pickFirstMax l with
    | none =>
      rw [hpl] at h
      have hl : l = [] := pickFirstMax_eq_none.1 hpl
      subst hl
      simp only [Option.some.injEq] at h
      subst h
      simp [maxCount]
    | some b =>
      rw [hpl] at h
      have hb : b.count = maxCount l := ih hpl
      by_cases hc : b.count ≤ a.count
      · simp only [hc, if_pos] at h
        cases h
        simp [maxCount, Nat.max_eq_left (hb ▸ hc)]
      · simp only [hc, if_neg, not_false_iff] at h
        cases h
        have : a.count ≤ maxCount l := le_of_lt (hb ▸ Nat.lt_of_not_le hc)
        simp [maxCount, Nat.max_eq_right this, hb]

theorem pickFirstMax_eq_find? :
    ∀ l : List CoEntry,
      pickFirstMax l = l.find? (fun e => decide (maxCount l ≤ e.count))
  | [] => rfl
  | a :: l => by
    have ih := pickFirstMax_eq_find? l
    cases hpl : pickFirstMax l with
    | none =>
      have hl : l = [] := pickFirstMax_eq_none.1 hpl
      subst hl
      simp [pickFirstMax, maxCount, List.find?]
    | some b =>
      have hb : b.count = maxCount l := count_pickFirstMax hpl
      simp only [pickFirstMax, hpl]
      by_cases hc : b.count ≤ a.count
      · have hmax : maxCount (a :: l) = a.count := by
          show max a.count (maxCount l) = a.count
          exact max_eq_left (hb ▸ hc)
        rw [if_pos hc, hmax, List.find?_cons_of_pos _ (by simp)]
      · have halt : a.count < maxCount l := hb ▸ Nat.lt_of_not_le hc
        have hmax : maxCount (a :: l) = maxCount l := by
          show max a.count (maxCount l) = maxCount l
          exact max_eq_right (le_of_lt halt)
        rw [if_neg hc, hmax, List.find?_cons_of_neg _ (by simpa using Nat.not_le_of_lt halt),
          ← ih, hpl]

/-- The head of the stable descending sort is exactly the first entry of the
accumulator whose count attains the maximum. -/
theorem head?_sortByCountDesc (l : List CoEntry) :
    (sortByCountDesc l).head? = l.find? (fun e => decide (maxCount l ≤ e.count)) := by
  rw [head?_sortByCountDesc_eq_pickFirstMax, pickFirstMax_eq_find?]

theorem mem_of_head?_sortByCountDesc {l : List CoEntry} {top : CoEntry}
    (h : (sortByCountDesc l).head? = some top) : top ∈ l := by
  rw [head?_sortByCountDesc] at h
  exact List.mem_of_find?_eq_some h

theorem count_le_maxCount {l : List CoEntry} {e : CoEntry} (he : e ∈ l) :
    e.count ≤ maxCount l := by
  induction l with
  | nil => cases he
  | cons a l ih =>
    show _ ≤ max a.count (maxCount l)
    rcases List.mem_cons.1 he with rfl | h
    · exact le_max_left _ _
    · exact le_trans (ih h) (le_max_right _ _)

theorem count_le_of_head?_sortByCountDesc {l : List CoEntry} {top : CoEntry}
    (h : (sortByCountDesc l).head? = some top) :
    ∀ e ∈ l, e.count ≤ top.count := by
  rw [head?_sortByCountDesc] at h
  have htop : maxCount l ≤ top.count := by
    have := List.find?_some h
    simpa using this
  exact fun e he => le_trans (count_le_maxCount he) htop

/-!
## Invariants of the `co_purchased` accumulator
-/

theorem pid_ne_of_mem_addCoItem {a : String} {acc : List CoEntry} {it : OrderItem}
    (h : ∀ e ∈ acc, e.pid ≠ some a) :
    ∀ e ∈ addCoItem a acc it, e.pid ≠ some a := by
  intro e he
  simp only [addCoItem] at he
  split at he
  · exact h e he
  · rename_i hskip
    split at he
    · rcases List.mem_map.1 he with ⟨x, hx, hxe⟩
      have hpid : e.pid = x.pid := by
        by_cases hb : x.pid == itemProductId it
        · rw [if_pos hb] at hxe; rw [← hxe]
        · rw [if_neg hb] at hxe; rw [← hxe]
      rw [hpid]
      exact h x hx
    · rcases List.mem_append.1 he with hmem | hmem
      · exact h e hmem
      · rcases List.mem_singleton.1 hmem with rfl
        simpa using hskip

theorem pid_ne_of_mem_foldItems {a : String} :
    ∀ (items : List OrderItem) (acc : List CoEntry),
      (∀ e ∈ acc, e.pid ≠ some a) →
      ∀ e ∈ items.foldl (addCoItem a) acc, e.pid ≠ some a := by
  intro items
  induction items with
  | nil => intro acc h e he; exact h e he
  | cons it items ih =>
    intro acc h e he
    exact ih (addCoItem a acc it) (pid_ne_of_mem_addCoItem h) e he

theorem pid_ne_of_mem_foldOrders {a : String} :
    ∀ (orders : List Order) (acc : List CoEntry),
      (∀ e ∈ acc, e.pid ≠ some a) →
      ∀ e ∈ orders.foldl
          (fun acc o =>
            if orderHasProduct a o.items then o.items.foldl (addCoItem a) acc
            else acc) acc,
        e.pid ≠ some a := by
  intro orders
  induction orders with
  | nil => intro acc h e he; exact h e he
  | cons o orders ih =>
    intro acc h e he
    simp only [List.foldl_cons] at he
    by_cases hq : orderHasProduct a o.items
    · rw [if_pos hq] at he
      exact ih _ (pid_ne_of_mem_foldItems o.items acc h) e he
    · rw [if_neg hq] at he
      exact ih _ h e he

/-- Every entry accumulated by the deriver names a product other than the one
just added: the loop skips items whose (primary-or-nested) id equals the
added id. -/
theorem pid_ne_of_mem_buildCo {a : String} {orders : List Order} :
    ∀ e ∈ buildCo a orders, e.pid ≠ some a :=
  pid_ne_of_mem_foldOrders orders [] (by intro e he; cases he)

/-!
## Shape of a produced recommendation
-/

/-- Whenever the deriver produces a recommendation, it is built (fresh or
fallback) from the head of the sorted accumulator of some successfully
parsed order history: its product id and occurrence count come from that
entry. -/
theorem rec_shape {o : Except Unit OrdersResp}
    {pd : Option String → Except Unit DetailResp} {a n : String} {r : Rec}
    (h : (getRecommendationFromHistory o pd a n).1 = some r) :
    ∃ od top, o = Except.ok od ∧
      (sortByCountDesc (buildCo a od.orders)).head? = some top ∧
      top ∈ buildCo a od.orders ∧
      r.product.id = top.pid ∧
      r.times_bought_together = top.count := by
  unfold getRecommendationFromHistory at h
  cases o with
  | error e => simp at h
  | ok od =>
    refine ⟨od, ?_⟩
    simp only at h
    split at h
    · simp at h
    · split at h
      · simp at h
      · split at h
        · simp at h
        · split at h
          · simp at h
          · rename_i top htop
            refine ⟨top, rfl, htop, mem_of_head?_sortByCountDesc htop, ?_⟩
            split at h
            · simp at h
            · rename_i pdr hpd
              split at h
              · split at h
                · simp at h
                · split at h
                  · simp at h
                  · rename_i p hp disc hdisc
                    simp only [Option.some.injEq] at h
                    subst h
                    exact ⟨rfl, rfl⟩
              · simp only [Option.some.injEq] at h
                subst h
                exact ⟨rfl, rfl⟩


/-!
## Frame lemmas: request traces
-/

theorem fetchImage_trace_no_mutating (f : String → Except Unit ImgResp)
    (u : Option String) :
    (fetchImageAsContent f u).2.filter Request.isMutating = [] := by
  unfold fetchImageAsContent
  cases u with
  | none => rfl
  | some s =>
    by_cases hs : s = ""
    · simp [hs]
    · simp only [hs, if_neg, not_false_iff]
      cases f s with
      | error e => simp [Request.isMutating]
      | ok r =>
        by_cases h200 : r.status ≠ 200
        · simp [h200, Request.isMutating]
        · by_cases hsz : r.content.length > 1048576 <;>
            simp [h200, hsz, Request.isMutating]

theorem getRecommendation_trace_no_mutating (o : Except Unit OrdersResp)
    (pd : Option String → Except Unit DetailResp) (a n : String) :
    (getRecommendationFromHistory o pd a n).2.filter Request.isMutating = [] := by
  unfold getRecommendationFromHistory
  cases o with
  | error e => simp [Request.isMutating]
  | ok od =>
    by_cases h1 : !od.success
    · simp [h1, Request.isMutating]
    · by_cases h2 : od.orders.isEmpty
      · simp [h1, h2, Request.isMutating]
      · by_cases h3 : (buildCo a od.orders).isEmpty
        · simp [h1, h2, h3, Request.isMutating]
        · simp only [h1, h2, h3, Bool.false_eq_true, if_false]
          cases htop : (sortByCountDesc (buildCo a od.orders)).head? with
          | none => simp [Request.isMutating]
          | some top =>
            cases hpd : pd top.pid with
            | error e => simp [hpd, Request.isMutating]
            | ok p =>
              by_cases h4 : p.success
              · cases hp : p.product with
                | none => simp [hpd, h4, hp, Request.isMutating]
                | some pr =>
                  cases hd : codeDiscount pr.mrp pr.price with
                  | error e => simp [hpd, h4, hp, hd, Request.isMutating]
                  | ok disc => simp [hpd, h4, hp, hd, Request.isMutating]
              · simp [hpd, h4, Request.isMutating]

/-!
## Claims
-/

/-- Claim C3: a call to `add_to_cart` with `confirmed` unset issues no mutating
(POST/PUT/DELETE) request — it returns only the structured proposal — and a
call with `confirmed` set issues exactly one mutating request, the
`POST /cart/items`; this holds for every network behaviour. -/
theorem addToCart_confirmation_gate :
    ∀ (net : CartNet) (pid : String) (qty : Nat),
      (addToCart net pid qty false).2.filter Request.isMutating = [] ∧
      (addToCart net pid qty true).2.filter Request.isMutating =
        [⟨Method.POST, "/cart/items"⟩] := by
  intro net pid qty
  constructor
  · unfold addToCart
    simp only [Bool.not_false, if_true, ite_true]
    cases hd : net.productDetail (some pid) with
    | error e => simp [Request.isMutating]
    | ok d =>
      by_cases hs : d.success
      · simp only [hs, if_true, ite_true]
        cases hp : d.product with
        | none => simp [Request.isMutating]
        | some p =>
          cases hdisc : codeDiscountIdx p.mrp p.price with
          | error e => simp [hdisc, Request.isMutating]
          | ok disc =>
            cases hmsg : mkProposalMessage p qty disc with
            | error e =>
              have hfi := fetchImage_trace_no_mutating net.image p.image
              rw [List.filter_eq_nil_iff] at hfi
              simp [hdisc, hmsg, List.filter_append, Request.isMutating] at hfi ⊢
              exact hfi
            | ok msg =>
              have hfi := fetchImage_trace_no_mutating net.image p.image
              rw [List.filter_eq_nil_iff] at hfi
              cases hi : (fetchImageAsContent net.image p.image).1 <;>
                simp [hdisc, hmsg, hi, List.filter_append,
                  Request.isMutating] at hfi ⊢ <;>
                exact hfi
      · simp [hs, Request.isMutating]
  · unfold addToCart
    simp only [Bool.not_true, if_false, ite_false]
    cases hc : net.cartAdd with
    | error e => simp [Request.isMutating]
    | ok c =>
      by_cases hcond :
          c.success && strTruthy (lookupProductName net.productDetail pid)
      · simp only [hcond, if_true, ite_true]
        cases hr : (getRecommendationFromHistory net.orders net.productDetail
            pid ((lookupProductName net.productDetail pid).getD "")).1 <;>
          simp [hr, List.filter_append, Request.isMutating,
            getRecommendation_trace_no_mutating]
      · simp [hcond, Request.isMutating]

/-- Claim C1 (code-bug evidence): with a non-empty cart and a default address
explicitly marked unserviceable, `view_cart` still reports
`ready_for_checkout = true` — the flag is computed as
`default_address is not None and len(cart_items) > 0`, never consulting
serviceability — while the very same response attaches the
"Delivery not available" warning. The claim's serviceability conjunct is
what the code's own message logic intends but the flag omits. -/
theorem viewCart_ready_ignores_serviceability :
    c1Addr.isDefault = some true ∧
    c1Addr.isServiceable = some false ∧
    (viewCartEnhanced (viewCart c1Net)).map
        (fun r => (r.ready_for_checkout, r.item_count, r.message)) =
      some (true, 1, "⚠️ Delivery not available at selected address.") :=
  ⟨rfl, rfl, by with_unfolding_all rfl⟩

/-- Claim C2: the deriver selects the co-occurring product with the highest
occurrence count, ties broken in favour of the entry encountered first
(the head of the stable descending sort is the first entry attaining the
maximum count); and on the concrete history where A co-occurs with B in 3
orders and with C in 1, adding A recommends B with
`times_bought_together = 3`. -/
theorem recommendation_selects_first_max :
    (∀ co : List CoEntry,
        (sortByCountDesc co).head? =
          co.find? (fun e => decide (maxCount co ≤ e.count))) ∧
    (getRecommendationFromHistory c2Orders c2Detail "A" "Apples").1.map
        (fun r => (r.product.id, r.times_bought_together)) =
      some (some "B", 3) :=
  ⟨head?_sortByCountDesc, by with_unfolding_all rfl⟩

/-- Claim C5: whenever the deriver produces a recommendation, the recommended
product's identifier differs from the identifier of the just-added
product. -/
theorem recommendation_product_distinct :
    ∀ (o : Except Unit OrdersResp)
      (pd : Option String → Except Unit DetailResp) (a n : String) (r : Rec),
      (getRecommendationFromHistory o pd a n).1 = some r →
      r.product.id ≠ some a := by
  intro o pd a n r h
  obtain ⟨od, top, -, -, hmem, hid, -⟩ := rec_shape h
  rw [hid]
  exact pid_ne_of_mem_buildCo top hmem

/-- Witness for C5: on a concrete one-order history the deriver produces a
recommendation, and the theorem applies to show its id differs from the
added product A. -/
theorem recommendation_product_distinct_witness :
    ((getRecommendationFromHistory c5Orders c2Detail "A" "Apples").1.getD
        dummyRec).product.id ≠ some "A" :=
  recommendation_product_distinct c5Orders c2Detail "A" "Apples" _
    (by with_unfolding_all rfl)

theorem codeDiscount_eq_spec {mrp price : Option Rat} {d : Int}
    (h : codeDiscount mrp price = Except.ok d) :
    d = specDiscount (mrp.getD 0) (price.getD 0) := by
  unfold codeDiscount at h
  unfold specDiscount
  by_cases hgt : mrp.getD 0 > price.getD 0
  · rw [if_pos hgt] at h
    rw [if_pos hgt]
    cases mrp with
    | none => simp at h
    | some m =>
      cases price with
      | none => simp at h
      | some pr =>
        by_cases hm : m = 0
        · simp [hm] at h
        · simp only [hm, if_neg, not_false_iff, Except.ok.injEq] at h
          simp [← h]
  · rw [if_neg hgt] at h
    rw [if_neg hgt]
    simp only [Except.ok.injEq] at h
    exact h.symm

theorem codeDiscountIdx_eq_spec {mrp price : Option Rat} {d : Int}
    (h : codeDiscountIdx mrp price = Except.ok d) :
    d = specDiscount (mrp.getD 0) (price.getD 0) := by
  cases mrp with
  | none => simp [codeDiscountIdx, req, Bind.bind, Except.bind] at h
  | some m =>
    cases price with
    | none => simp [codeDiscountIdx, req, Bind.bind, Except.bind] at h
    | some pr =>
      simp only [codeDiscountIdx, req, Bind.bind, Except.bind, pure,
        Except.pure] at h
      unfold specDiscount
      simp only [Option.getD_some]
      split at h
      · rename_i hgt
        split at h
        · simp at h
        · simp only [Except.ok.injEq] at h
          rw [if_pos hgt]
          exact h.symm
      · rename_i hgt
        simp only [Except.ok.injEq] at h
        rw [if_neg hgt]
        exact h.symm

theorem formatProduct_discount {p : UpProduct} {f : FormattedProduct}
    (h : formatProduct p = Except.ok f) :
    f.discount_percent = specDiscount (p.mrp.getD 0) (p.price.getD 0) := by
  cases hd : codeDiscount p.mrp p.price with
  | error e => simp [formatProduct, hd] at h
  | ok d =>
    simp only [formatProduct, hd, Bind.bind, Except.bind, pure, Except.pure,
      Except.ok.injEq] at h
    rw [← h]
    exact codeDiscount_eq_spec hd

/-- Claim C9: every discount derived by the façade — in the search reshaping,
in the proposal path's direct-index variant, and in the deriver's refresh —
equals the spec's formula `round((MRP − price) / MRP × 100)` when
MRP > price and 0 when MRP ≤ price; in particular MRP = 100, price = 75
gives 25. -/
theorem discount_formula_matches_spec :
    (∀ (p : UpProduct) (f : FormattedProduct), formatProduct p = Except.ok f →
        f.discount_percent = specDiscount (p.mrp.getD 0) (p.price.getD 0)) ∧
    (∀ (mrp price : Option Rat) (d : Int),
        codeDiscount mrp price = Except.ok d →
        d = specDiscount (mrp.getD 0) (price.getD 0)) ∧
    (∀ (mrp price : Option Rat) (d : Int),
        codeDiscountIdx mrp price = Except.ok d →
        d = specDiscount (mrp.getD 0) (price.getD 0)) ∧
    specDiscount 100 75 = 25 :=
  ⟨fun _ _ h => formatProduct_discount h,
   fun _ _ _ h => codeDiscount_eq_spec h,
   fun _ _ _ h => codeDiscountIdx_eq_spec h,
   by with_unfolding_all rfl⟩

/-- Witness for C9: the reshaping of the concrete MRP-100/price-75 product
succeeds and the theorem applies, giving discount 25. -/
theorem discount_formula_matches_spec_witness :
    formatProduct c9Product = Except.ok c9Formatted ∧
    c9Formatted.discount_percent =
      specDiscount (c9Product.mrp.getD 0) (c9Product.price.getD 0) ∧
    c9Formatted.discount_percent = 25 := by
  have h : formatProduct c9Product = Except.ok c9Formatted := by
    with_unfolding_all rfl
  exact ⟨h, discount_formula_matches_spec.1 c9Product c9Formatted h,
    by with_unfolding_all rfl⟩

/-- Claim C10: for every cart state and address situation, the delivery
estimate of the enhanced `view_cart` response is the constant 15 minutes:
`estimated_mins = 15`, `estimated_time = "~15 minutes"`, and the
ready-for-checkout message always interpolates 15 — nothing is derived from
the cart's items. -/
theorem viewCart_delivery_constant :
    ∀ (net : ViewNet) (r : ViewCartResult),
      viewCart net = Except.ok (ViewCartReturn.enhanced r) →
      r.estimated_mins = 15 ∧
      r.estimated_time = "~15 minutes" ∧
      ∀ da, r.selected_address = some da → da.is_serviceable = true →
        r.item_count ≠ 0 → r.message = readyMessage da.city 15 := by
  intro net r h
  simp only [viewCart] at h
  split at h
  · exact absurd h (by simp)
  · split at h
    · simp at h
    · split at h
      · exact absurd h (by simp)
      · split at h
        · exact absurd h (by simp)
        · simp only [Except.ok.injEq, ViewCartReturn.enhanced.injEq] at h
          subst h
          refine ⟨rfl, by with_unfolding_all rfl, ?_⟩
          intro da hda hserv hcnt
          simp only at hda hcnt ⊢
          rw [hda]
          dsimp only
          have hserv' : ¬ ((!da.is_serviceable) = true) := by simp [hserv]
          rw [if_neg hserv', if_neg hcnt]

/-- Witness for C10: a concrete serviceable-default-address, one-item cart
where the theorem applies: the estimate is 15 and the message interpolates
15. -/
theorem viewCart_delivery_constant_witness :
    viewCart c10Net = Except.ok (ViewCartReturn.enhanced c10R) ∧
    c10R.estimated_mins = 15 ∧
    c10R.estimated_time = "~15 minutes" ∧
    c10R.message = readyMessage (some "Pune") 15 := by
  have h : viewCart c10Net = Except.ok (ViewCartReturn.enhanced c10R) := by
    with_unfolding_all rfl
  have hc := viewCart_delivery_constant c10Net c10R h
  refine ⟨h, hc.1, hc.2.1, ?_⟩
  have hone : c10R.item_count = 1 := by with_unfolding_all rfl
  have hm := hc.2.2 (mkDefaultAddress c10Addr) (by with_unfolding_all rfl)
    (by with_unfolding_all rfl) (by omega)
  exact hm

theorem fetchImage_oversized_none {f : String → Except Unit ImgResp}
    {s : String} {r : ImgResp} (hr : f s = Except.ok r)
    (hbig : r.content.length > 1048576) :
    (fetchImageAsContent f (some s)).1 = none := by
  unfold fetchImageAsContent
  by_cases hs : s = ""
  · simp [hs]
  · simp only [hs, if_neg, not_false_iff]
    rw [hr]
    by_cases h200 : r.status ≠ 200
    · simp [h200]
    · simp [h200, hbig]

theorem collectImages_eq_nil {f : String → Except Unit ImgResp}
    {ps : List UpProduct}
    (h : ∀ p ∈ ps, (fetchImageAsContent f p.image).1 = none) :
    collectImages f ps = [] := by
  unfold collectImages
  rw [List.filterMap_eq_nil_iff]
  intro x hx
  rcases List.mem_map.1 hx with ⟨p, hp, hpx⟩
  rw [← hpx]
  exact h p hp

theorem searchProducts_data_without_images {net : SearchNet} {d : SearchResp}
    {fps : List FormattedProduct}
    (hs : net.searchResp = Except.ok d) (hd : d.success = true)
    (hf : d.products.mapM formatProduct = Except.ok fps)
    (himg : ∀ p ∈ d.products.take 3,
      (fetchImageAsContent net.image p.image).1 = none) :
    searchProducts net true = Except.ok (SearchReturn.enhanced [] d fps) := by
  unfold searchProducts
  rw [hs]
  simp only [hd, if_true, ite_true]
  rw [hf, collectImages_eq_nil himg]

theorem fetchImage_coerces_content_type {f : String → Except Unit ImgResp}
    {s : String} {r : ImgResp} (hr : f s = Except.ok r) (hs : s ≠ "")
    (h200 : r.status = 200) (hsz : ¬ r.content.length > 1048576)
    (hct : (stripContentType (r.contentType.getD "image/jpeg")).startsWith
      "image/" = false) :
    (fetchImageAsContent f (some s)).1 =
      some ⟨"image", b64Encode r.content, "image/jpeg"⟩ := by
  unfold fetchImageAsContent
  simp only [hs, if_neg, not_false_iff]
  rw [hr]
  have h200' : ¬ (r.status ≠ 200) := by simp [h200]
  simp [h200', hct, hsz]

/-- Claim C4 (amended): a fetched payload larger than 1 MiB yields no image
element while the structured JSON result is still returned; but a non-image
declared content type does **not** suppress the image — the content type is
coerced to `image/jpeg` and the image element is still attached. -/
theorem image_attachment_amended :
    (∀ (f : String → Except Unit ImgResp) (s : String) (r : ImgResp),
        f s = Except.ok r → r.content.length > 1048576 →
        (fetchImageAsContent f (some s)).1 = none) ∧
    (∀ (net : SearchNet) (d : SearchResp) (fps : List FormattedProduct),
        net.searchResp = Except.ok d → d.success = true →
        d.products.mapM formatProduct = Except.ok fps →
        (∀ p ∈ d.products.take 3,
          (fetchImageAsContent net.image p.image).1 = none) →
        searchProducts net true = Except.ok (SearchReturn.enhanced [] d fps)) ∧
    (∀ (f : String → Except Unit ImgResp) (s : String) (r : ImgResp),
        f s = Except.ok r → s ≠ "" → r.status = 200 →
        ¬ r.content.length > 1048576 →
        (stripContentType (r.contentType.getD "image/jpeg")).startsWith
          "image/" = false →
        (fetchImageAsContent f (some s)).1 =
          some ⟨"image", b64Encode r.content, "image/jpeg"⟩) :=
  ⟨fun _ _ _ hr hbig => fetchImage_oversized_none hr hbig,
   fun _ _ _ hs hd hf himg => searchProducts_data_without_images hs hd hf himg,
   fun _ _ _ hr hs h200 hsz hct =>
     fetchImage_coerces_content_type hr hs h200 hsz hct⟩

/-- Counterexample for C4 as stated: a 200 response declaring `text/html`
(non-image) still yields an image element — the mime type is silently
coerced to `image/jpeg` — refuting "non-image declared content type ⇒ no
image element in the result". -/
theorem image_attachment_counterexample :
    c4Resp.contentType = some "text/html" ∧
    (stripContentType "text/html").startsWith "image/" = false ∧
    (fetchImageAsContent c4ImgNet (some "http://img/p.png")).1 =
      some ⟨"image", b64Encode c4Resp.content, "image/jpeg"⟩ :=
  ⟨rfl, by with_unfolding_all rfl, by with_unfolding_all rfl⟩

/-- Witness for C4 (amended): on concrete inputs, an oversized payload
yields no image while the structured search data is returned, and a
non-image content type yields a coerced image. -/
theorem image_attachment_amended_witness :
    c4BigResp.content.length > 1048576 ∧
    (fetchImageAsContent c4BigNet (some "http://img/x.png")).1 = none ∧
    searchProducts c4SearchNet true =
      Except.ok (SearchReturn.enhanced []
        { success := true, products := [c4Product] } [c4Formatted]) ∧
    (fetchImageAsContent c4ImgNet (some "http://img/p.png")).1 =
      some ⟨"image", b64Encode c4Resp.content, "image/jpeg"⟩ := by
  have hbig : c4BigResp.content.length > 1048576 := by
    show (List.replicate 1048577 (0 : UInt8)).length > 1048576
    rw [List.length_replicate]
    norm_num
  have h1 := image_attachment_amended.1 c4BigNet "http://img/x.png" c4BigResp
    rfl hbig
  refine ⟨hbig, h1, ?_, ?_⟩
  · refine image_attachment_amended.2.1 c4SearchNet
      { success := true, products := [c4Product] } [c4Formatted] rfl rfl
      (by with_unfolding_all rfl) ?_
    intro p hp
    rcases List.mem_singleton.1 (by simpa using hp) with rfl
    exact image_attachment_amended.1 c4BigNet "http://img/x.png" c4BigResp
      rfl hbig
  · exact image_attachment_amended.2.2 c4ImgNet "http://img/p.png" c4Resp rfl
      (by decide) rfl (by decide) (by with_unfolding_all rfl)

/-- Counterexample for C6 as stated: the pre-add product lookup parses but
reports `success: false`, so `product_name` stays `None`; the cart POST
succeeds, yet the response carries **neither** a recommendation **nor** the
explicit `has_recommendation` flag. -/
theorem addToCart_flag_counterexample :
    addedResult (addToCart c6Net "p1" 1 true) =
      some { success := true, recommendation := none,
             has_recommendation := none } := by
  with_unfolding_all rfl

/-- Claim C6 (amended): for a confirmed `add_to_cart` whose cart POST succeeds
**and** whose pre-add product-name lookup produced a truthy name, the
response carries either an attached recommendation (with
`has_recommendation = true`) or the explicit `has_recommendation = false`
flag; when the lookup yields a falsy name (a parsed `success: false`
response or an empty name), neither key is attached. -/
theorem addToCart_flag_amended :
    ∀ (net : CartNet) (pid : String) (qty : Nat) (out : AddResult),
      addedResult (addToCart net pid qty true) = some out →
      out.success = true →
      strTruthy (lookupProductName net.productDetail pid) = true →
      (out.recommendation.isSome = true ∧ out.has_recommendation = some true) ∨
      (out.recommendation = none ∧ out.has_recommendation = some false) := by
  intro net pid qty out h hsucc hname
  unfold addToCart at h
  rw [if_neg (by simp)] at h
  split at h
  · simp [addedResult] at h
  · dsimp only at h
    split at h
    · split at h
      · simp only [addedResult, Option.some.injEq] at h
        subst h
        exact Or.inl ⟨rfl, rfl⟩
      · simp only [addedResult, Option.some.injEq] at h
        subst h
        exact Or.inr ⟨rfl, rfl⟩
    · rename_i hcond
      simp only [addedResult, Option.some.injEq] at h
      subst h
      simp only at hsucc
      exact absurd (by simp [hsucc, hname]) hcond

/-- Witness for C6 (amended): a concrete confirmed add with a truthy looked
up name and a failing history fetch, where the theorem applies and the
explicit `has_recommendation = false` flag is attached. -/
theorem addToCart_flag_amended_witness :
    addedResult (addToCart c6OkNet "p1" 1 true) =
      some { success := true, recommendation := none,
             has_recommendation := some false } ∧
    strTruthy (lookupProductName c6OkNet.productDetail "p1") = true ∧
    ((({ success := true, recommendation := none,
         has_recommendation := some false } : AddResult).recommendation.isSome
          = true ∧
      ({ success := true, recommendation := none,
         has_recommendation := some false } : AddResult).has_recommendation
          = some true) ∨
     (({ success := true, recommendation := none,
         has_recommendation := some false } : AddResult).recommendation
          = none ∧
      ({ success := true, recommendation := none,
         has_recommendation := some false } : AddResult).has_recommendation
          = some false)) := by
  have h : addedResult (addToCart c6OkNet "p1" 1 true) =
      some { success := true, recommendation := none,
             has_recommendation := some false } := by
    with_unfolding_all rfl
  have hn : strTruthy (lookupProductName c6OkNet.productDetail "p1") = true := by
    with_unfolding_all rfl
  exact ⟨h, hn, addToCart_flag_amended c6OkNet "p1" 1 _ h rfl hn⟩

/-- Claim C7: whenever the live refresh of the selected product fails (the
response parses but reports `success: false`), the deriver returns the
fallback recommendation built from the cached first-seen snapshot — same
id, name, price, image, unit and count as the accumulator entry — and it
carries no discount (and no MRP) field. -/
theorem recommendation_fallback_on_failed_refresh :
    ∀ (o : Except Unit OrdersResp)
      (pd : Option String → Except Unit DetailResp) (a n : String)
      (od : OrdersResp) (top : CoEntry) (p : DetailResp),
      o = Except.ok od → od.success = true →
      (sortByCountDesc (buildCo a od.orders)).head? = some top →
      pd top.pid = Except.ok p → p.success = false →
      (getRecommendationFromHistory o pd a n).1 = some (fallbackRec n top) ∧
      (fallbackRec n top).product.id = top.pid ∧
      (fallbackRec n top).product.name = top.name ∧
      (fallbackRec n top).product.price = top.price ∧
      (fallbackRec n top).product.image = top.image ∧
      (fallbackRec n top).product.unit = top.unit ∧
      (fallbackRec n top).product.discount_percent = none ∧
      (fallbackRec n top).product.mrp = none ∧
      (fallbackRec n top).times_bought_together = top.count := by
  intro o pd a n od top p ho hsucc htop hpd hfail
  subst ho
  have hco : (buildCo a od.orders).isEmpty = false := by
    cases hemp : (buildCo a od.orders).isEmpty
    · rfl
    · rw [List.isEmpty_iff.1 hemp] at htop
      exact absurd htop (by simp [sortByCountDesc])
  have hord : od.orders.isEmpty = false := by
    cases hemp : od.orders.isEmpty
    · rfl
    · rw [List.isEmpty_iff.1 hemp] at hco
      exact absurd hco (by simp [buildCo])
  refine ⟨?_, rfl, rfl, rfl, rfl, rfl, rfl, rfl, rfl⟩
  simp only [getRecommendationFromHistory, hsucc, Bool.not_true, hord, hco,
    htop, hpd, hfail, Bool.false_eq_true, if_false]

/-- Claim C8: any failure of the deriver's history retrieval or product
refresh yields an absent recommendation (the deriver is a total function
into `Option`, so nothing escapes to `add_to_cart`), and a confirmed
cart-add whose POST succeeds returns a `success: true` result for every
behaviour of the recommendation path. -/
theorem recommendation_failures_silent :
    (∀ (pd : Option String → Except Unit DetailResp) (a n : String),
        (getRecommendationFromHistory (Except.error ()) pd a n).1 = none) ∧
    (∀ (o : Except Unit OrdersResp)
        (pd : Option String → Except Unit DetailResp) (a n : String)
        (od : OrdersResp) (top : CoEntry),
        o = Except.ok od →
        (sortByCountDesc (buildCo a od.orders)).head? = some top →
        pd top.pid = Except.error () →
        (getRecommendationFromHistory o pd a n).1 = none) ∧
    (∀ (net : CartNet) (pid : String) (qty : Nat) (c : CartAddResp),
        net.cartAdd = Except.ok c → c.success = true →
        ∃ out, addedResult (addToCart net pid qty true) = some out ∧
          out.success = true) := by
  refine ⟨fun pd a n => rfl, ?_, ?_⟩
  · intro o pd a n od top ho htop hpd
    subst ho
    by_cases hsucc : od.success
    · have hco : (buildCo a od.orders).isEmpty = false := by
        cases hemp : (buildCo a od.orders).isEmpty
        · rfl
        · rw [List.isEmpty_iff.1 hemp] at htop
          exact absurd htop (by simp [sortByCountDesc])
      have hord : od.orders.isEmpty = false := by
        cases hemp : od.orders.isEmpty
        · rfl
        · rw [List.isEmpty_iff.1 hemp] at hco
          exact absurd hco (by simp [buildCo])
      simp only [getRecommendationFromHistory, hsucc, Bool.not_true, hord,
        hco, htop, hpd, Bool.false_eq_true, if_false]
    · simp only [Bool.not_eq_true] at hsucc
      simp [getRecommendationFromHistory, hsucc]
  · intro net pid qty c hca hsucc
    unfold addToCart
    rw [if_neg (by simp), hca]
    dsimp only
    by_cases hcond :
        (c.success && strTruthy (lookupProductName net.productDetail pid)) = true
    · rw [if_pos hcond]
      cases hr : (getRecommendationFromHistory net.orders net.productDetail
          pid ((lookupProductName net.productDetail pid).getD "")).1 with
      | some r => exact ⟨_, rfl, hsucc⟩
      | none => exact ⟨_, rfl, hsucc⟩
    · rw [if_neg hcond]
      exact ⟨_, rfl, hsucc⟩

/-- Witness for C7: on a concrete one-order history with a refresh that
parses but reports failure, the theorem applies: the fallback carries the
cached snapshot and no discount field. -/
theorem recommendation_fallback_witness :
    (getRecommendationFromHistory c5Orders c7Detail "A" "Apples").1 =
      some (fallbackRec "Apples" c7Top) ∧
    (fallbackRec "Apples" c7Top).product.discount_percent = none ∧
    (fallbackRec "Apples" c7Top).product.name = some "Bananas" := by
  have h := recommendation_fallback_on_failed_refresh c5Orders c7Detail "A"
    "Apples" { success := true, orders := [⟨[c2ItemA, c2ItemB]⟩] } c7Top
    { success := false, product := none } (by with_unfolding_all rfl)
    (by with_unfolding_all rfl) (by with_unfolding_all rfl)
    (by with_unfolding_all rfl) (by with_unfolding_all rfl)
  exact ⟨h.1, h.2.2.2.2.2.2.1, by with_unfolding_all rfl⟩

/-- Witness for C8: the theorem applies on concrete failing oracles
(history fetch raising; refresh raising) and on a concrete confirmed add
whose POST succeeds. -/
theorem recommendation_failures_silent_witness :
    (getRecommendationFromHistory (Except.error ()) c2Detail "A" "Apples").1
      = none ∧
    (getRecommendationFromHistory c5Orders c8Detail "A" "Apples").1 = none ∧
    (∃ out, addedResult (addToCart c8Net "p1" 1 true) = some out ∧
      out.success = true) := by
  refine ⟨recommendation_failures_silent.1 c2Detail "A" "Apples", ?_, ?_⟩
  · exact recommendation_failures_silent.2.1 c5Orders c8Detail "A" "Apples"
      { success := true, orders := [⟨[c2ItemA, c2ItemB]⟩] } c7Top
      (by with_unfolding_all rfl) (by with_unfolding_all rfl)
      (by with_unfolding_all rfl)
  · exact recommendation_failures_silent.2.2 c8Net "p1" 1
      { success := true } (by with_unfolding_all rfl) rfl
